import Mathlib

/-!
# Verification of the hexaurl-validate library

Shallow embedding of the HexaURL validation core (TypeScript) in Lean 4.

A JavaScript string is modelled as its list of UTF-16 code units
(`input.length`, `startsWith`, `endsWith`, `includes` and the character-class
regexes all operate on code units in the source).  JavaScript numeric
arithmetic on the small integer inputs used here is exact except for
`calcStrLen`, whose IEEE-754 division `(n * 4) / 3` is modelled by exact
rational division: for `n < 2 ^ 50` the double result and the rational result
lie strictly between the same pair of consecutive integers (the rounding error
is far below 1/3), so every comparison against an integer string length
agrees between the two.
-/

deriving instance DecidableEq for Except

/-- A JavaScript string: its UTF-16 code units. -/
abbrev JSString := List Nat

/-- `Composition`/`IdentifierComposition` enum from `config.ts`. -/
inductive IdentifierComposition where
  | Alphanumeric
  | AlphanumericHyphen
  | AlphanumericUnderscore
  | AlphanumericHyphenUnderscore
deriving DecidableEq, Repr

/-- `DelimiterRules` interface from `config.ts`. -/
structure DelimiterRules where
  allowLeadingTrailingHyphens : Bool
  allowLeadingTrailingUnderscores : Bool
  allowConsecutiveHyphens : Bool
  allowConsecutiveUnderscores : Bool
  allowAdjacentHyphenUnderscore : Bool
deriving DecidableEq, Repr

/-- The `Config` value: the four readonly fields of the `Config` class.
`minLength`/`maxLength` are `number | null` holding non-negative integers,
modelled as `Option Nat`. -/
structure Config where
  minLength : Option Nat
  maxLength : Option Nat
  identifier : IdentifierComposition
  delimiter : Option DelimiterRules
deriving DecidableEq, Repr

/-- `HexaUrlErrorCode` enum from `error.ts`. -/
inductive HexaUrlErrorCode where
  | StringTooLong
  | StringTooShort
  | BytesTooLong
  | BytesTooShort
  | InvalidCharacter
  | InvalidConfig
  | InvalidLength
  | LeadingTrailingHyphen
  | LeadingTrailingUnderscore
  | ConsecutiveHyphens
  | ConsecutiveUnderscores
  | AdjacentHyphenUnderscore
deriving DecidableEq, Repr

/-- `createDelimiterRules()` with no overrides: all five flags `false`. -/
def createDelimiterRules : DelimiterRules :=
  ⟨false, false, false, false, false⟩

/-- `createAllowedDelimiterRules()`: all five flags `true`. -/
def createAllowedDelimiterRules : DelimiterRules :=
  ⟨true, true, true, true, true⟩

/-- `calcStrLen` from the validator: `(n * 4) / 3` — IEEE-754 division,
modelled as exact rational division (see the file header).  Written with
`mkRat` so that it evaluates by kernel reduction; `calcStrLen_eq_div`
below shows it is exactly the rational division `(n * 4) / 3`. -/
def calcStrLen (n : Nat) : ℚ := mkRat (n * 4) 3

/-- The `effectiveMax` local of `validate`:
`config.maxLength !== null ? Math.min(config.maxLength, calcStrLen(byteSize)) : calcStrLen(byteSize)`. -/
def effectiveMax (maxLength : Option Nat) (byteSize : Nat) : ℚ :=
  match maxLength with
  | some m => min (m : ℚ) (calcStrLen byteSize)
  | none => calcStrLen byteSize

/-- Code-unit test of the character class `[0-9A-Za-z]`. -/
def isAlnumCode (u : Nat) : Bool :=
  (decide (48 ≤ u) && decide (u ≤ 57)) ||
  (decide (65 ≤ u) && decide (u ≤ 90)) ||
  (decide (97 ≤ u) && decide (u ≤ 122))

/-- The character class of `getPatternForIdentifier`'s regex for each
composition: `[0-9A-Za-z]` plus hyphen (45) and/or underscore (95). -/
def allowedCodeUnit : IdentifierComposition → Nat → Bool
  | .Alphanumeric, u => isAlnumCode u
  | .AlphanumericHyphen, u => isAlnumCode u || decide (u = 45)
  | .AlphanumericUnderscore, u => isAlnumCode u || decide (u = 95)
  | .AlphanumericHyphenUnderscore, u =>
      isAlnumCode u || decide (u = 45) || decide (u = 95)

/-- `pattern.test(input)` for the anchored one-or-more regexes
`/^[...]+$/`: the string is non-empty and every code unit is in the class. -/
def patternTest (c : IdentifierComposition) (s : JSString) : Bool :=
  !s.isEmpty && s.all (allowedCodeUnit c)

/-- `input.startsWith(ch)` for a single code unit. -/
def startsWithU (u : Nat) (s : JSString) : Bool :=
  s.head? == some u

/-- `input.endsWith(ch)` for a single code unit. -/
def endsWithU (u : Nat) (s : JSString) : Bool :=
  s.getLast? == some u

/-- `input.includes(ab)` for a two-code-unit search string `ab`. -/
def containsPair (a b : Nat) : JSString → Bool
  | [] => false
  | [_] => false
  | x :: y :: rest => (decide (x = a) && decide (y = b)) || containsPair a b (y :: rest)

/-- First condition of `validate`:
`config.minLength !== null && effectiveMax < config.minLength`. -/
def minConflict (minLength : Option Nat) (effMax : ℚ) : Bool :=
  match minLength with
  | some m => decide (effMax < (m : ℚ))
  | none => false

/-- Second condition of `validate`:
`config.minLength !== null && len < config.minLength`. -/
def tooShort (minLength : Option Nat) (len : Nat) : Bool :=
  match minLength with
  | some m => decide (len < m)
  | none => false

/-- `validateDelimiters` from the validator: the five checks in source
order, each gated by its (negated) flag, throwing the matching code. -/
def validateDelimiters (input : JSString) (rules : DelimiterRules) :
    Except HexaUrlErrorCode Unit :=
  if !rules.allowLeadingTrailingHyphens &&
      (startsWithU 45 input || endsWithU 45 input) then
    .error .LeadingTrailingHyphen
  else if !rules.allowLeadingTrailingUnderscores &&
      (startsWithU 95 input || endsWithU 95 input) then
    .error .LeadingTrailingUnderscore
  else if !rules.allowConsecutiveHyphens && containsPair 45 45 input then
    .error .ConsecutiveHyphens
  else if !rules.allowConsecutiveUnderscores && containsPair 95 95 input then
    .error .ConsecutiveUnderscores
  else if !rules.allowAdjacentHyphenUnderscore &&
      (containsPair 45 95 input || containsPair 95 45 input) then
    .error .AdjacentHyphenUnderscore
  else
    .ok ()

/-- `validate(input, config, byteSize)` from the validator: the thrown
`HexaUrlErrorCode` becomes `Except.error`, success becomes `Except.ok`.
The absent-`delimiter` default is `config.delimiter ?? createDelimiterRules()`. -/
def validate (input : JSString) (config : Config) (byteSize : Nat) :
    Except HexaUrlErrorCode Unit :=
  let len := input.length
  let effMax := effectiveMax config.maxLength byteSize
  if minConflict config.minLength effMax then
    .error .InvalidConfig
  else if tooShort config.minLength len then
    .error .StringTooShort
  else if decide ((len : ℚ) > effMax) then
    .error .StringTooLong
  else if !patternTest config.identifier input then
    .error .InvalidCharacter
  else
    validateDelimiters input (config.delimiter.getD createDelimiterRules)

/-- `isEncodingSafe(input, byteSize)`:
`input.length <= calcStrLen(byteSize) && /^[\x00-\x7F]*$/.test(input)`. -/
def isEncodingSafe (input : JSString) (byteSize : Nat) : Bool :=
  decide ((input.length : ℚ) ≤ calcStrLen byteSize) &&
    input.all (fun u => decide (u ≤ 127))

/-- The compound condition of the private `Config.validate` method:
`this.minLength !== null && this.maxLength !== null && this.minLength > this.maxLength`. -/
def minGtMax : Option Nat → Option Nat → Bool
  | some m, some mx => decide (mx < m)
  | _, _ => false

/-- The `Config` class constructor (`new Config(...)`): runs the private
consistency check and throws a plain `Error` (just a message string, no
`HexaUrlErrorCode`) when both lengths are present and `minLength > maxLength`. -/
def configNew (minLength maxLength : Option Nat)
    (identifier : IdentifierComposition) (delimiter : Option DelimiterRules) :
    Except String Config :=
  if minGtMax minLength maxLength then
    .error "Minimum length cannot be greater than maximum length"
  else
    .ok ⟨minLength, maxLength, identifier, delimiter⟩

/-- `ConfigOptions`: each field of the TS options object may be absent
(`none`), explicitly `null` (`some none`), or a value (`some (some v)`);
`identifier` is optional but not nullable. -/
structure ConfigOptions where
  minLength : Option (Option Nat) := none
  maxLength : Option (Option Nat) := none
  identifier : Option IdentifierComposition := none
  delimiter : Option (Option DelimiterRules) := none

/-- JavaScript nullish coalescing `x ?? d` for a `T | null | undefined`
left operand and a nullable default. -/
def nullish (x : Option (Option α)) (d : Option α) : Option α :=
  match x with
  | some (some v) => some v
  | _ => d

/-- `options.minLength ?? Config.DEFAULT_MIN_LENGTH` — the value passed to
the constructor by `Config.create`; it is a plain number, never null. -/
def createMinLength (o : Option (Option Nat)) : Nat :=
  match o with
  | some (some v) => v
  | _ => 3

/-- `Config.create(options)` (also exported as `createConfig`). -/
def configCreate (opts : ConfigOptions) : Except String Config :=
  configNew
    (some (createMinLength opts.minLength))
    (nullish opts.maxLength none)
    (opts.identifier.getD .AlphanumericHyphen)
    (nullish opts.delimiter none)

/-- `Config.minimal()`. -/
def configMinimal : Except String Config :=
  configNew none none .AlphanumericHyphenUnderscore
    (some createAllowedDelimiterRules)

/-- The value produced by `Config.create()` with no options — the default
configuration used by `validate`. -/
def defaultConfig : Config :=
  ⟨some 3, none, .AlphanumericHyphen, none⟩

/-- Code units of an ASCII Lean string literal (for ASCII characters the
scalar value is the single UTF-16 code unit). -/
def ofAscii (s : String) : JSString :=
  s.data.map Char.toNat

/-- High-surrogate test on a UTF-16 code unit (0xD800–0xDBFF). -/
def isHighSurrogate (u : Nat) : Bool :=
  decide (55296 ≤ u) && decide (u ≤ 56319)

/-- Low-surrogate test on a UTF-16 code unit (0xDC00–0xDFFF). -/
def isLowSurrogate (u : Nat) : Bool :=
  decide (56320 ≤ u) && decide (u ≤ 57343)

/-- Number of Unicode scalar values encoded by a UTF-16 code-unit
sequence: a high surrogate followed by a low surrogate forms one scalar;
every other unit counts as one. -/
def scalarCount : JSString → Nat
  | [] => 0
  | [_] => 1
  | u :: v :: rest =>
    if isHighSurrogate u && isLowSurrogate v then 1 + scalarCount rest
    else 1 + scalarCount (v :: rest)

/-- Modelled from the spec: the claim that "string length is measured as
the number of Unicode scalar values" — the same algorithm as `validate`
but with the two length checks reading `scalarCount input` in place of
the source's `input.length` (UTF-16 code units).  Used only to compare
against the source-faithful `validate`. -/
def validateUSV (input : JSString) (config : Config) (byteSize : Nat) :
    Except HexaUrlErrorCode Unit :=
  let len := scalarCount input
  let effMax := effectiveMax config.maxLength byteSize
  if minConflict config.minLength effMax then
    .error .InvalidConfig
  else if tooShort config.minLength len then
    .error .StringTooShort
  else if decide ((len : ℚ) > effMax) then
    .error .StringTooLong
  else if !patternTest config.identifier input then
    .error .InvalidCharacter
  else
    validateDelimiters input (config.delimiter.getD createDelimiterRules)

/-- Modelled from the spec: the ordered list of (condition, error) pairs
of §4.2 — config conflict, too short, too long, composition, then the
five delimiter checks in their fixed order. -/
def orderedChecks (s : JSString) (cfg : Config) (n : Nat) :
    List (Bool × HexaUrlErrorCode) :=
  let effMax := effectiveMax cfg.maxLength n
  let rules := cfg.delimiter.getD createDelimiterRules
  [ (minConflict cfg.minLength effMax, .InvalidConfig),
    (tooShort cfg.minLength s.length, .StringTooShort),
    (decide ((s.length : ℚ) > effMax), .StringTooLong),
    (!patternTest cfg.identifier s, .InvalidCharacter),
    (!rules.allowLeadingTrailingHyphens && (startsWithU 45 s || endsWithU 45 s),
      .LeadingTrailingHyphen),
    (!rules.allowLeadingTrailingUnderscores && (startsWithU 95 s || endsWithU 95 s),
      .LeadingTrailingUnderscore),
    (!rules.allowConsecutiveHyphens && containsPair 45 45 s,
      .ConsecutiveHyphens),
    (!rules.allowConsecutiveUnderscores && containsPair 95 95 s,
      .ConsecutiveUnderscores),
    (!rules.allowAdjacentHyphenUnderscore && (containsPair 45 95 s || containsPair 95 45 s),
      .AdjacentHyphenUnderscore) ]

/-- Modelled from the spec: "the first violated check determines the
reported error and the remaining checks are not evaluated". -/
def firstFailing : List (Bool × HexaUrlErrorCode) → Except HexaUrlErrorCode Unit
  | [] => .ok ()
  | (b, e) :: rest => if b then .error e else firstFailing rest

/-- Index type for the five delimiter checks, in their source order. -/
inductive DelimCheck where
  | ltHyphen
  | ltUnderscore
  | consecutiveHyphens
  | consecutiveUnderscores
  | adjacentHU
deriving DecidableEq, Repr

/-- The forbidden pattern each delimiter check looks for. -/
def violatesDelim : DelimCheck → JSString → Bool
  | .ltHyphen, s => startsWithU 45 s || endsWithU 45 s
  | .ltUnderscore, s => startsWithU 95 s || endsWithU 95 s
  | .consecutiveHyphens, s => containsPair 45 45 s
  | .consecutiveUnderscores, s => containsPair 95 95 s
  | .adjacentHU, s => containsPair 45 95 s || containsPair 95 45 s

/-- The error code each delimiter check reports. -/
def delimError : DelimCheck → HexaUrlErrorCode
  | .ltHyphen => .LeadingTrailingHyphen
  | .ltUnderscore => .LeadingTrailingUnderscore
  | .consecutiveHyphens => .ConsecutiveHyphens
  | .consecutiveUnderscores => .ConsecutiveUnderscores
  | .adjacentHU => .AdjacentHyphenUnderscore

/-- Overwrite the one flag belonging to a delimiter check. -/
def setFlag : DelimCheck → Bool → DelimiterRules → DelimiterRules
  | .ltHyphen, b, r => { r with allowLeadingTrailingHyphens := b }
  | .ltUnderscore, b, r => { r with allowLeadingTrailingUnderscores := b }
  | .consecutiveHyphens, b, r => { r with allowConsecutiveHyphens := b }
  | .consecutiveUnderscores, b, r => { r with allowConsecutiveUnderscores := b }
  | .adjacentHU, b, r => { r with allowAdjacentHyphenUnderscore := b }

-- Shared helper lemmas

theorem calcStrLen_eq_div (n : Nat) : calcStrLen n = ((n : ℚ) * 4) / 3 := by
  unfold calcStrLen
  rw [Rat.mkRat_eq_div]
  push_cast
  ring

theorem calcStrLen_nonneg (n : Nat) : 0 ≤ calcStrLen n := by
  rw [calcStrLen_eq_div]
  positivity

theorem effectiveMax_nonneg (M : Option Nat) (n : Nat) : 0 ≤ effectiveMax M n := by
  cases M with
  | none => exact calcStrLen_nonneg n
  | some m => exact le_min (Nat.cast_nonneg m) (calcStrLen_nonneg n)

/-- An integer length is at most the rational `calcStrLen n` exactly when
it is at most the floor `n * 4 / 3`. -/
theorem le_calcStrLen_iff (n len : Nat) :
    (len : ℚ) ≤ calcStrLen n ↔ len ≤ n * 4 / 3 := by
  rw [calcStrLen_eq_div, le_div_iff₀ (by norm_num : (0:ℚ) < 3),
    Nat.le_div_iff_mul_le (by norm_num : 0 < 3)]
  constructor
  · intro h
    exact_mod_cast h
  · intro h
    exact_mod_cast h

/-- If no code unit is a high surrogate, every unit is one scalar. -/
theorem scalarCount_eq_length (s : JSString)
    (h : ∀ u ∈ s, isHighSurrogate u = false) : scalarCount s = s.length := by
  induction s with
  | nil => rfl
  | cons u rest ih =>
    cases rest with
    | nil => rfl
    | cons v rest2 =>
      have hu : isHighSurrogate u = false := h u (by simp)
      have hr : ∀ w ∈ v :: rest2, isHighSurrogate w = false := by
        intro w hw
        exact h w (List.mem_cons_of_mem u hw)
      have hstep : scalarCount (u :: v :: rest2) = 1 + scalarCount (v :: rest2) := by
        simp [scalarCount, hu]
      rw [hstep, ih hr, List.length_cons, List.length_cons, List.length_cons]
      omega

/-- Every composition only allows code units below 128. -/
theorem allowedCodeUnit_ascii (c : IdentifierComposition) (u : Nat)
    (h : 128 ≤ u) : allowedCodeUnit c u = false := by
  cases c <;> simp [allowedCodeUnit, isAlnumCode] <;> omega

/-- A code unit outside the composition class makes the pattern fail. -/
theorem patternTest_false_of_bad (c : IdentifierComposition) (s : JSString)
    (h : ∃ u ∈ s, allowedCodeUnit c u = false) : patternTest c s = false := by
  obtain ⟨u, hu, hbad⟩ := h
  cases hp : patternTest c s with
  | false => rfl
  | true =>
    exfalso
    simp [patternTest] at hp
    have hone := hp.2 u hu
    rw [hbad] at hone
    cases hone

/-- `validate` in its literal if-chain shape (the `let`s expanded). -/
theorem validate_stage (s : JSString) (cfg : Config) (n : Nat) :
    validate s cfg n =
      (if minConflict cfg.minLength (effectiveMax cfg.maxLength n) then
        .error .InvalidConfig
      else if tooShort cfg.minLength s.length then
        .error .StringTooShort
      else if decide ((s.length : ℚ) > effectiveMax cfg.maxLength n) then
        .error .StringTooLong
      else if !patternTest cfg.identifier s then
        .error .InvalidCharacter
      else
        validateDelimiters s (cfg.delimiter.getD createDelimiterRules)) := rfl

/-- After the config, length and composition stages all pass, `validate`
reports `InvalidCharacter` whenever some code unit is outside the class. -/
theorem validate_badchar (s : JSString) (cfg : Config) (n : Nat)
    (h1 : minConflict cfg.minLength (effectiveMax cfg.maxLength n) = false)
    (h2 : tooShort cfg.minLength s.length = false)
    (h3 : (s.length : ℚ) ≤ effectiveMax cfg.maxLength n)
    (hbad : ∃ u ∈ s, allowedCodeUnit cfg.identifier u = false) :
    validate s cfg n = .error .InvalidCharacter := by
  rw [validate_stage, h1, h2]
  simp only [Bool.false_eq_true, if_false]
  rw [patternTest_false_of_bad cfg.identifier s hbad]
  simp [not_lt.mpr h3]

/-- A code unit at most 127 is not a high surrogate. -/
theorem highSurrogate_false_of_ascii (u : Nat) (h : u ≤ 127) :
    isHighSurrogate u = false := by
  simp [isHighSurrogate]
  omega

-- Claim theorems

/-- C1 (counterexample): `calcStrLen` does not truncate: at `n = 16` it
returns the non-integer rational `64/3`, not `21` as the claim states. -/
theorem calcStrLen_16_not_21 :
    calcStrLen 16 ≠ (21 : ℚ) ∧ calcStrLen 16 = 64 / 3 := by
  constructor
  · decide
  · rw [calcStrLen_eq_div]
    norm_num

/-- C1 (amended): `calcStrLen n` is the exact rational `n*4/3` with no
truncation; an integer length fits under it exactly when it is at most
the floor `n*4/3`, so the induced character bound is `floor(n*4/3)` —
21 for n = 16, 10 for n = 8, 42 for n = 32. -/
theorem calcStrLen_induced_floor_bound :
    (∀ n len : Nat, (len : ℚ) ≤ calcStrLen n ↔ len ≤ n * 4 / 3) ∧
    16 * 4 / 3 = 21 ∧ 8 * 4 / 3 = 10 ∧ 32 * 4 / 3 = 42 :=
  ⟨fun n len => le_calcStrLen_iff n len, by decide, by decide, by decide⟩

/-- C3: with `delimiter` absent (null), `validate` behaves exactly as
with the explicit strict all-false rules — delimiter checks are not
skipped — and in particular the default-config call on
"too--many-hyphens" fails with `ConsecutiveHyphens`. -/
theorem validate_absent_delimiter_strict :
    (∀ (s : JSString) (m M : Option Nat) (c : IdentifierComposition) (n : Nat),
      validate s ⟨m, M, c, none⟩ n =
        validate s ⟨m, M, c, some createDelimiterRules⟩ n) ∧
    validate (ofAscii "too--many-hyphens") defaultConfig 16 =
      .error .ConsecutiveHyphens :=
  ⟨fun _ _ _ _ _ => rfl, by decide⟩

/-- C4: `isEncodingSafe s n` is true iff `s` has at most `floor(n*4/3)`
characters and every one is in the ASCII range 0x00–0x7F; it is a total
boolean function and checks no composition or delimiter rule — it
accepts "-_", which fails the strictest composition and delimiter
checks. -/
theorem isEncodingSafe_characterization :
    (∀ (s : JSString) (n : Nat),
      isEncodingSafe s n = true ↔
        (scalarCount s ≤ n * 4 / 3 ∧ ∀ u ∈ s, u ≤ 127)) ∧
    (isEncodingSafe (ofAscii "-_") 16 = true ∧
      patternTest .Alphanumeric (ofAscii "-_") = false ∧
      validateDelimiters (ofAscii "-_") createDelimiterRules =
        .error .LeadingTrailingHyphen) := by
  refine ⟨fun s n => ?_, by decide, by decide, by decide⟩
  have hcast : ∀ h : ∀ u ∈ s, u ≤ 127, scalarCount s = s.length := by
    intro h
    exact scalarCount_eq_length s fun u hu => highSurrogate_false_of_ascii u (h u hu)
  constructor
  · intro h
    simp only [isEncodingSafe, Bool.and_eq_true, decide_eq_true_eq, List.all_eq_true] at h
    obtain ⟨hlen, hascii⟩ := h
    refine ⟨?_, hascii⟩
    rw [hcast hascii]
    exact (le_calcStrLen_iff n s.length).mp hlen
  · intro h
    obtain ⟨hlen, hascii⟩ := h
    simp only [isEncodingSafe, Bool.and_eq_true, decide_eq_true_eq, List.all_eq_true]
    refine ⟨?_, hascii⟩
    rw [hcast hascii] at hlen
    exact (le_calcStrLen_iff n s.length).mpr hlen

/-- C5 (counterexample): "!" consists of a character outside the default
composition class, yet `validate` reports `StringTooShort`, not
`InvalidCharacter`: the length checks run before character validation. -/
theorem invalid_char_loses_to_length :
    (∃ u ∈ ofAscii "!", allowedCodeUnit defaultConfig.identifier u = false) ∧
    validate (ofAscii "!") defaultConfig 16 = .error .StringTooShort ∧
    validate (ofAscii "!") defaultConfig 16 ≠ .error .InvalidCharacter :=
  ⟨⟨33, by decide, by decide⟩, by decide, by decide⟩

/-- C5 (amended): for inputs that pass the config and length stages, a
character outside the selected composition's class makes `validate`
fail with `InvalidCharacter`; length-invalid inputs report the length
error instead. -/
theorem invalid_char_when_lengths_pass :
    ∀ (s : JSString) (cfg : Config) (n : Nat),
      minConflict cfg.minLength (effectiveMax cfg.maxLength n) = false →
      tooShort cfg.minLength s.length = false →
      (s.length : ℚ) ≤ effectiveMax cfg.maxLength n →
      (∃ u ∈ s, allowedCodeUnit cfg.identifier u = false) →
      validate s cfg n = .error .InvalidCharacter :=
  fun s cfg n h1 h2 h3 hbad => validate_badchar s cfg n h1 h2 h3 hbad

theorem invalid_char_when_lengths_pass_witness :
    validate (ofAscii "ab!") defaultConfig 16 = .error .InvalidCharacter :=
  invalid_char_when_lengths_pass (ofAscii "ab!") defaultConfig 16
    (by decide) (by decide) (by decide) ⟨33, by decide, by decide⟩

/-- C6 (counterexample): lengths are UTF-16 code-unit counts, not
Unicode scalar counts: "🦊a" ([0xD83E, 0xDD8A, 0x61]) has 2 scalars but
length 3, so the source `validate` passes the default minimum length 3
and reports `InvalidCharacter`, while the scalar-measuring variant the
claim describes would report `StringTooShort`. -/
theorem validate_counts_code_units_not_scalars :
    scalarCount [55358, 56714, 97] = 2 ∧
    List.length ([55358, 56714, 97] : JSString) = 3 ∧
    validate [55358, 56714, 97] defaultConfig 16 = .error .InvalidCharacter ∧
    validateUSV [55358, 56714, 97] defaultConfig 16 = .error .StringTooShort ∧
    validate [55358, 56714, 97] defaultConfig 16 ≠
      validateUSV [55358, 56714, 97] defaultConfig 16 :=
  ⟨by decide, by decide, by decide, by decide, by decide⟩

/-- C6 (amended): length is measured in UTF-16 code units, which equals
the Unicode scalar count whenever no astral (surrogate-pair) character
is present; a non-ASCII input that passes the length stages is rejected
at the composition stage with `InvalidCharacter`. -/
theorem length_code_units_matches_scalars_bmp :
    (∀ s : JSString, (∀ u ∈ s, isHighSurrogate u = false) →
      scalarCount s = s.length) ∧
    (∀ (s : JSString) (cfg : Config) (n : Nat),
      minConflict cfg.minLength (effectiveMax cfg.maxLength n) = false →
      tooShort cfg.minLength s.length = false →
      (s.length : ℚ) ≤ effectiveMax cfg.maxLength n →
      (∃ u ∈ s, 128 ≤ u) →
      validate s cfg n = .error .InvalidCharacter) := by
  refine ⟨scalarCount_eq_length, fun s cfg n h1 h2 h3 hbad => ?_⟩
  obtain ⟨u, hu, h128⟩ := hbad
  exact validate_badchar s cfg n h1 h2 h3
    ⟨u, hu, allowedCodeUnit_ascii cfg.identifier u h128⟩

theorem length_code_units_matches_scalars_bmp_witness :
    scalarCount [233, 97, 98] = List.length ([233, 97, 98] : JSString) ∧
    validate [233, 97, 98] defaultConfig 16 = .error .InvalidCharacter :=
  ⟨length_code_units_matches_scalars_bmp.1 [233, 97, 98] (by decide),
    length_code_units_matches_scalars_bmp.2 [233, 97, 98] defaultConfig 16
      (by decide) (by decide) (by decide) ⟨233, by decide, by decide⟩⟩

/-- C7: whenever `minLength` is absent, the empty string still fails —
every composition regex requires at least one character, so `validate`
reports `InvalidCharacter` at the composition stage. -/
theorem validate_empty_no_min_invalid_character :
    ∀ (cfg : Config) (n : Nat), cfg.minLength = none →
      validate [] cfg n = .error .InvalidCharacter := by
  intro cfg n h
  have h3 : (([] : JSString).length : ℚ) ≤ effectiveMax cfg.maxLength n := by
    simp only [List.length_nil, Nat.cast_zero]
    exact effectiveMax_nonneg cfg.maxLength n
  rw [validate_stage, h]
  simp only [minConflict, tooShort, Bool.false_eq_true, if_false]
  rw [patternTest]
  simp [not_lt.mpr h3]
  exact effectiveMax_nonneg cfg.maxLength n

theorem validate_empty_no_min_invalid_character_witness :
    validate [] ⟨none, none, .AlphanumericHyphenUnderscore,
      some createAllowedDelimiterRules⟩ 16 = .error .InvalidCharacter :=
  validate_empty_no_min_invalid_character
    ⟨none, none, .AlphanumericHyphenUnderscore, some createAllowedDelimiterRules⟩
    16 rfl

/-- C9: `Config` construction fails exactly when both lengths are present
and `minLength > maxLength`; the failure is a plain message (`String`,
no `HexaUrlErrorCode` — a different type from the runtime `InvalidConfig`
validation error); `Config.create`/`createConfig` is the constructor on
the defaulted option values. -/
theorem config_construction_error_iff :
    (∀ (mn mx : Option Nat) (c : IdentifierComposition) (d : Option DelimiterRules),
      (∃ e, configNew mn mx c d = .error e) ↔
        ∃ m M, mn = some m ∧ mx = some M ∧ M < m) ∧
    (∀ (mn mx : Option Nat) (c : IdentifierComposition) (d : Option DelimiterRules)
      (e : String), configNew mn mx c d = .error e →
        e = "Minimum length cannot be greater than maximum length") ∧
    (∀ opts : ConfigOptions,
      configCreate opts =
        configNew (some (createMinLength opts.minLength)) (nullish opts.maxLength none)
          (opts.identifier.getD .AlphanumericHyphen) (nullish opts.delimiter none)) := by
  refine ⟨?_, ?_, fun _ => rfl⟩
  · intro mn mx c d
    cases mn with
    | none => simp [configNew, minGtMax]
    | some m =>
      cases mx with
      | none => simp [configNew, minGtMax]
      | some M =>
        by_cases hlt : M < m
        · simp [configNew, minGtMax, hlt]
        · simp [configNew, minGtMax, hlt]
  · intro mn mx c d e h
    unfold configNew at h
    split at h
    · injection h with h2
      exact h2.symm
    · cases h

theorem config_construction_error_iff_witness :
    (∃ e, configNew (some 5) (some 2) .Alphanumeric none = .error e) ∧
    "Minimum length cannot be greater than maximum length" =
      "Minimum length cannot be greater than maximum length" :=
  ⟨(config_construction_error_iff.1 (some 5) (some 2) .Alphanumeric none).mpr
      ⟨5, 2, rfl, rfl, by decide⟩,
    config_construction_error_iff.2.1 (some 5) (some 2) .Alphanumeric none _ rfl⟩

/-- C10: `Config.create` (and `createConfig`) coalesces an explicitly
null `minLength` to the default 3, so every configuration it returns has
`minLength` present; a configuration with no minimum arises only from
`Config.minimal()` or from the constructor called directly with null. -/
theorem configCreate_min_always_present :
    (∀ (opts : ConfigOptions) (cfg : Config),
      configCreate opts = .ok cfg →
        cfg.minLength = some (createMinLength opts.minLength)) ∧
    createMinLength (some none) = 3 ∧
    configMinimal = .ok ⟨none, none, .AlphanumericHyphenUnderscore,
      some createAllowedDelimiterRules⟩ ∧
    (∀ (mx : Option Nat) (c : IdentifierComposition) (d : Option DelimiterRules),
      configNew none mx c d = .ok ⟨none, mx, c, d⟩) := by
  refine ⟨?_, rfl, rfl, fun _ _ _ => rfl⟩
  intro opts cfg h
  unfold configCreate configNew at h
  split at h
  · cases h
  · injection h with h2
    rw [← h2]

theorem configCreate_min_always_present_witness :
    defaultConfig.minLength = some (createMinLength (some none)) :=
  configCreate_min_always_present.1 ⟨some none, none, none, none⟩ defaultConfig rfl

/-- `firstFailing` reports the error of the first true condition, with
every earlier condition false. -/
theorem firstFailing_error_iff (l : List (Bool × HexaUrlErrorCode))
    (e : HexaUrlErrorCode) :
    firstFailing l = .error e ↔
      ∃ i : Nat, l[i]? = some (true, e) ∧
        ∀ j : Nat, j < i → ∀ p : Bool × HexaUrlErrorCode, l[j]? = some p → p.1 = false := by
  induction l with
  | nil => simp [firstFailing]
  | cons hd rest ih =>
    obtain ⟨b, e0⟩ := hd
    cases b with
    | true =>
      simp only [firstFailing, if_true]
      constructor
      · intro h
        injection h with h2
        refine ⟨0, by simp [h2], ?_⟩
        intro j hj
        omega
      · intro ⟨i, hi, hprev⟩
        cases i with
        | zero =>
          simp only [List.getElem?_cons_zero, Option.some.injEq, Prod.mk.injEq] at hi
          rw [hi.2]
        | succ k =>
          have hfalse := hprev 0 (by omega) (true, e0) (by simp)
          cases hfalse
    | false =>
      have hred : firstFailing ((false, e0) :: rest) = firstFailing rest := by
        simp [firstFailing]
      rw [hred, ih]
      constructor
      · intro ⟨k, hk, hprev⟩
        refine ⟨k + 1, by simpa using hk, ?_⟩
        intro j hj p hp
        cases j with
        | zero =>
          simp only [List.getElem?_cons_zero, Option.some.injEq] at hp
          rw [← hp]
        | succ j2 =>
          exact hprev j2 (by omega) p (by simpa using hp)
      · intro ⟨i, hi, hprev⟩
        cases i with
        | zero =>
          simp only [List.getElem?_cons_zero, Option.some.injEq, Prod.mk.injEq] at hi
          cases hi.1
        | succ k =>
          refine ⟨k, by simpa using hi, ?_⟩
          intro j hj p hp
          exact hprev (j + 1) (by omega) p (by simpa using hp)

/-- C2: `validate` equals the first failure of the spec's ordered check
list — config conflict, too short, too long, composition, then the five
delimiter checks in fixed order — and it reports error `e` exactly when
some check in that list is violated, reports `e`, and every earlier
check passes. -/
theorem validate_ordered_first_failure :
    ∀ (s : JSString) (cfg : Config) (n : Nat),
      validate s cfg n = firstFailing (orderedChecks s cfg n) ∧
      (∀ e, validate s cfg n = .error e ↔
        ∃ i : Nat, (orderedChecks s cfg n)[i]? = some (true, e) ∧
          ∀ j : Nat, j < i → ∀ p : Bool × HexaUrlErrorCode,
            (orderedChecks s cfg n)[j]? = some p → p.1 = false) := by
  intro s cfg n
  have hrefine : validate s cfg n = firstFailing (orderedChecks s cfg n) := rfl
  refine ⟨hrefine, fun e => ?_⟩
  rw [hrefine]
  exact firstFailing_error_iff (orderedChecks s cfg n) e

/-- C8: for each delimiter check, on an input whose only delimiter
violation is that check's pattern and which passes the config, length
and composition stages, `validate` fails with the check's error code
when its flag is false and succeeds when the flag is true — whatever
the other flags are. -/
theorem delimiter_flag_gates_error :
    ∀ (c : DelimCheck) (s : JSString) (m M : Option Nat)
      (comp : IdentifierComposition) (rules : DelimiterRules) (n : Nat),
      validate s ⟨m, M, comp, some createAllowedDelimiterRules⟩ n = .ok () →
      violatesDelim c s = true →
      (∀ c2, c2 ≠ c → violatesDelim c2 s = false) →
      validate s ⟨m, M, comp, some (setFlag c false rules)⟩ n =
          .error (delimError c) ∧
        validate s ⟨m, M, comp, some (setFlag c true rules)⟩ n = .ok () := by
  intro c s m M comp rules n hok hv ho
  have hA : minConflict m (effectiveMax M n) = false := by
    cases hA0 : minConflict m (effectiveMax M n)
    · rfl
    · simp [validate_stage, hA0] at hok
  have hB : tooShort m s.length = false := by
    cases hB0 : tooShort m s.length
    · rfl
    · simp [validate_stage, hA, hB0] at hok
  have hC : decide ((s.length : ℚ) > effectiveMax M n) = false := by
    cases hC0 : decide ((s.length : ℚ) > effectiveMax M n)
    · rfl
    · simp [validate_stage, hA, hB, hC0] at hok
  have hD : patternTest comp s = true := by
    cases hD0 : patternTest comp s
    · simp [validate_stage, hA, hB, hC, hD0] at hok
    · rfl
  have hstage : ∀ d : DelimiterRules,
      validate s ⟨m, M, comp, some d⟩ n = validateDelimiters s d := by
    intro d
    simp [validate_stage, hA, hB, hC, hD]
  rw [hstage, hstage]
  cases c with
  | ltHyphen =>
    simp only [violatesDelim] at hv
    have o2 := ho .ltUnderscore (by decide)
    have o3 := ho .consecutiveHyphens (by decide)
    have o4 := ho .consecutiveUnderscores (by decide)
    have o5 := ho .adjacentHU (by decide)
    simp only [violatesDelim] at o2 o3 o4 o5
    constructor <;> simp [validateDelimiters, setFlag, delimError, hv, o2, o3, o4, o5]
  | ltUnderscore =>
    simp only [violatesDelim] at hv
    have o1 := ho .ltHyphen (by decide)
    have o3 := ho .consecutiveHyphens (by decide)
    have o4 := ho .consecutiveUnderscores (by decide)
    have o5 := ho .adjacentHU (by decide)
    simp only [violatesDelim] at o1 o3 o4 o5
    constructor <;> simp [validateDelimiters, setFlag, delimError, hv, o1, o3, o4, o5]
  | consecutiveHyphens =>
    simp only [violatesDelim] at hv
    have o1 := ho .ltHyphen (by decide)
    have o2 := ho .ltUnderscore (by decide)
    have o4 := ho .consecutiveUnderscores (by decide)
    have o5 := ho .adjacentHU (by decide)
    simp only [violatesDelim] at o1 o2 o4 o5
    constructor <;> simp [validateDelimiters, setFlag, delimError, hv, o1, o2, o4, o5]
  | consecutiveUnderscores =>
    simp only [violatesDelim] at hv
    have o1 := ho .ltHyphen (by decide)
    have o2 := ho .ltUnderscore (by decide)
    have o3 := ho .consecutiveHyphens (by decide)
    have o5 := ho .adjacentHU (by decide)
    simp only [violatesDelim] at o1 o2 o3 o5
    constructor <;> simp [validateDelimiters, setFlag, delimError, hv, o1, o2, o3, o5]
  | adjacentHU =>
    simp only [violatesDelim] at hv
    have o1 := ho .ltHyphen (by decide)
    have o2 := ho .ltUnderscore (by decide)
    have o3 := ho .consecutiveHyphens (by decide)
    have o4 := ho .consecutiveUnderscores (by decide)
    simp only [violatesDelim] at o1 o2 o3 o4
    constructor <;> simp [validateDelimiters, setFlag, delimError, hv, o1, o2, o3, o4]

theorem delimiter_flag_gates_error_witness :
    validate (ofAscii "-test-") ⟨some 3, none, .AlphanumericHyphen,
        some (setFlag .ltHyphen false createDelimiterRules)⟩ 16 =
      .error .LeadingTrailingHyphen ∧
    validate (ofAscii "-test-") ⟨some 3, none, .AlphanumericHyphen,
        some (setFlag .ltHyphen true createDelimiterRules)⟩ 16 = .ok () :=
  delimiter_flag_gates_error .ltHyphen (ofAscii "-test-") (some 3) none
    .AlphanumericHyphen createDelimiterRules 16 (by decide) (by decide)
    (by intro c2 h
        cases c2
        · exact absurd rfl h
        · decide
        · decide
        · decide
        · decide)
